import Mathlib

/-!
Verification of the scale / axis core of the `rustplotlib` charting library.

The Rust source stores numeric data in `f32` and pixel bounds in `isize`.
This development embeds the arithmetic shallowly and exactly: `f32` values
become rationals (`ℚ`), `isize` becomes `ℤ`, `usize` becomes `ℕ`.  The
floating-point operations of the source (`ln`, `log10`, `sqrt`, casts) are
modelled by their exact mathematical counterparts on `ℚ`:

* `x.trunc()` / `as i32` on a nonnegative value is integer truncation;
* a comparison `error >= k.sqrt()` with `k > 0` is encoded exactly as
  `0 ≤ error ∧ k ≤ error ^ 2`;
* `(step.ln() / 10.ln()).trunc()` is the integer truncation of
  `log₁₀ step`, computed exactly on positive rationals by `qlog10trunc`;
* `x.log10().floor()` is `⌊log₁₀ x⌋`, computed exactly by `qlog10floor`.

`f32::EPSILON` is `2⁻²³` exactly and is kept as such (`epsF32`).
-/

/-- The constant `f32::EPSILON = 2⁻²³`, used by the scales to test two
domain bounds for equality. -/
def epsF32 : ℚ := 1 / 2 ^ 23

/-- Exact test for `0 ≤ q` and `√n ≤ q` (`n : ℕ`): for a nonnegative
radicand, `√n ≤ q ↔ 0 ≤ q ∧ n ≤ q²`.  This encodes the source's
`error >= e10` comparisons (with `e10 = 50.sqrt()` etc.) without
introducing irrational numbers. -/
def sqrtLe (n : ℕ) (q : ℚ) : Bool :=
  decide (0 ≤ q) && decide ((n : ℚ) ≤ q ^ 2)

/-- Truncation of `log₁₀ q` toward zero, exact on positive rationals:
for `q ≥ 1` it is `⌊log₁₀ q⌋ = Nat.log 10 ⌊q⌋`, and for `0 < q < 1` it is
`-⌊log₁₀ q⁻¹⌋`.  This models the source expression
`(step.ln() / 10_f32.ln()).trunc() as i32` in `ScaleLinear::tick_step`.
On `q ≤ 0` (where the source would produce NaN) it returns `0`. -/
def qlog10trunc (q : ℚ) : ℤ :=
  if 1 ≤ q then (Nat.log 10 ⌊q⌋.toNat : ℤ)
  else -(Nat.log 10 ⌊q⁻¹⌋.toNat : ℤ)

/-- Floor of `log₁₀ q`, exact on positive rationals: for `q ≥ 1` it is
`Nat.log 10 ⌊q⌋`, and for `0 < q < 1` it is `-⌈log₁₀ q⁻¹⌉`, computed with
`Nat.clog`.  This models `tick_distance.log10().floor()` in
`ScaleLogarithmic::compute_tick_distance`.  On `q ≤ 0` it returns `0`. -/
def qlog10floor (q : ℚ) : ℤ :=
  if 1 ≤ q then (Nat.log 10 ⌊q⌋.toNat : ℤ)
  else -(Nat.clog 10 ⌈q⁻¹⌉.toNat : ℤ)

/-- The Rust cast `x as i32` on an `f32`: truncation toward zero
(modelled exactly on `ℚ` by truncated division of numerator by
denominator). -/
def f32_to_i32 (q : ℚ) : ℤ :=
  q.num.tdiv q.den

/-- `ScaleLinear` from `src/scales/linear.rs`.  The source keeps
`domain : Vec<f32>` and `range : Vec<isize>`; per the data model both
always hold exactly two entries for a continuous scale (`scale`,
`get_ticks` index positions 0 and 1 unconditionally), so the embedding
stores the two entries of each directly. -/
structure ScaleLinear where
  domain0 : ℚ
  domain1 : ℚ
  range0 : ℤ
  range1 : ℤ
  tick_count : ℕ
deriving DecidableEq

/-- `ScaleLinear::normalize`: map `x` from `[a, b]` to `[0, 1]`; returns
`0.5` when the bounds agree within `f32::EPSILON`. -/
def ScaleLinear.normalize (_s : ScaleLinear) (a b x : ℚ) : ℚ :=
  if |a - b| < epsF32 then 1 / 2
  else (x - a) / (b - a)

/-- `ScaleLinear::interpolate`: map `t` from `[0, 1]` into `[a, b]`. -/
def ScaleLinear.interpolate (_s : ScaleLinear) (a b t : ℚ) : ℚ :=
  (b - a) * t + a

/-- `ScaleLinear::tick_step` (lines 70–91 of `linear.rs`): the d3-style
nice-step computation.  `step = (stop - start) / max(0, tick_count)`;
`power` is the truncation (toward zero) of `log₁₀ step`;
`error = step / 10 ^ power`; the multiplier snaps to 10, 5, 2 or 1 by
comparing `error` with `√50`, `√10`, `√2`; for `power < 0` the result is
the sign-flipped reciprocal `-(10 ^ (-power)) / dynamic`, otherwise
`dynamic * 10 ^ power`. -/
def ScaleLinear.tick_step (s : ScaleLinear) (start stop : ℚ) : ℚ :=
  let step : ℚ := (stop - start) / (max 0 s.tick_count : ℕ)
  let power : ℤ := qlog10trunc step
  let error : ℚ := step / (10 : ℚ) ^ power
  let dynamic : ℚ :=
    if sqrtLe 50 error then 10
    else if sqrtLe 10 error then 5
    else if sqrtLe 2 error then 2
    else 1
  if power < 0 then -((10 : ℚ) ^ (-power)) / dynamic
  else dynamic * (10 : ℚ) ^ power

/-- `ScaleLinear::scale` (trait impl, lines 110–118): normalize over the
domain, then interpolate into the range (range entries are `isize` cast
to `f32`). -/
def ScaleLinear.scale (s : ScaleLinear) (x : ℚ) : ℚ :=
  s.interpolate (s.range0 : ℚ) (s.range1 : ℚ) (s.normalize s.domain0 s.domain1 x)

/-- `ScaleLinear::bandwidth`: always `Some(0)`. -/
def ScaleLinear.bandwidth (_s : ScaleLinear) : Option ℚ :=
  some 0

/-- `ScaleLinear::range_start`. -/
def ScaleLinear.range_start (s : ScaleLinear) : ℚ :=
  (s.range0 : ℚ)

/-- `ScaleLinear::range_end`. -/
def ScaleLinear.range_end (s : ScaleLinear) : ℚ :=
  (s.range1 : ℚ)

/-- Default implementation of `Scale::is_range_reversed` from
`src/scales/mod.rs` lines 77–79: the range is reversed exactly when its
start exceeds its end. -/
def ScaleLinear.is_range_reversed (s : ScaleLinear) : Bool :=
  decide (s.range_start > s.range_end)

/-- `ScaleLinear::get_ticks` (lines 136–165).  If the two domain bounds
agree within `f32::EPSILON` and `tick_count > 0`, exactly one tick at
`domain[0]` is emitted.  Otherwise ticks are the multiples of the nice
step inside the domain; a negative step from `tick_step` encodes the
reciprocal branch and is divided out.  `start`/`stop` below are the
results of the source's `ceil`/`floor`, which are whole numbers, so the
source's final `(.. + 1).ceil()` is the identity and the while loop
running `i` from `0` below `nr_of_ticks` is a `List.range`. -/
def ScaleLinear.get_ticks (s : ScaleLinear) : List ℚ :=
  if |s.domain0 - s.domain1| < epsF32 ∧ 0 < s.tick_count then
    [s.domain0]
  else
    let step := s.tick_step s.domain0 s.domain1
    if 0 < step then
      let start : ℤ := ⌈s.domain0 / step⌉
      let stop : ℤ := ⌊s.domain1 / step⌋
      let nr_of_ticks : ℤ := stop - start + 1
      (List.range nr_of_ticks.toNat).map (fun i => ((start + i : ℤ) : ℚ) * step)
    else
      let start : ℤ := ⌊s.domain0 * step⌋
      let stop : ℤ := ⌈s.domain1 * step⌉
      let nr_of_ticks : ℤ := start - stop + 1
      (List.range nr_of_ticks.toNat).map (fun i => ((start - i : ℤ) : ℚ) / step)

/-- The increment between consecutive ticks that `ScaleLinear.get_ticks`
derives from a step value: a negative result of `tick_step` encodes the
reciprocal branch (the tick loop divides by the step), so the effective
increment is `-step⁻¹`; a positive step is used directly. -/
def step_increment (step : ℚ) : ℚ :=
  if step < 0 then -step⁻¹ else step

/-- The tick-step routine as the spec's words state it, with
`power = ⌊log₁₀ step⌋` (a true floor) in place of the source's
truncation toward zero; kept separate so the two can be compared. -/
def tick_step_floor_spec (tick_count : ℕ) (start stop : ℚ) : ℚ :=
  let step : ℚ := (stop - start) / (tick_count : ℚ)
  let power : ℤ := qlog10floor step
  let error : ℚ := step / (10 : ℚ) ^ power
  let dynamic : ℚ :=
    if sqrtLe 50 error then 10
    else if sqrtLe 10 error then 5
    else if sqrtLe 2 error then 2
    else 1
  if power < 0 then -((10 : ℚ) ^ (-power)) / dynamic
  else dynamic * (10 : ℚ) ^ power

/-- `ScaleLogarithmic` from `src/scales/logarithmic.rs`, embedded like
`ScaleLinear` (two domain bounds, two range bounds, a tick count). -/
structure ScaleLogarithmic where
  domain0 : ℚ
  domain1 : ℚ
  range0 : ℤ
  range1 : ℤ
  tick_count : ℕ
deriving DecidableEq

/-- The `Default` impl for `ScaleLogarithmic`: domain `[1, 1000]`,
range `[0, 1]`, `tick_count = 10`. -/
def ScaleLogarithmic.default : ScaleLogarithmic :=
  ⟨1, 1000, 0, 1, 10⟩

/-- `ScaleLogarithmic::normalize` (lines 62–70): identical in form to
the linear scale's normalize. -/
def ScaleLogarithmic.normalize (_s : ScaleLogarithmic) (domain_min domain_max x : ℚ) : ℚ :=
  if |domain_min - domain_max| < epsF32 then 1 / 2
  else (x - domain_min) / (domain_max - domain_min)

/-- `ScaleLogarithmic::interpolate` (lines 84–86). -/
def ScaleLogarithmic.interpolate (_s : ScaleLogarithmic) (a b t : ℚ) : ℚ :=
  (b - a) * t + a

/-- `ScaleLogarithmic::compute_tick_distance` (lines 89–111):
`tick_distance = (domain_max - domain_min) / tick_count`, replaced by
`10 ^ ⌊log₁₀ tick_distance⌋`, then adjusted once: halved if the
resulting tick count over the domain is below 2, doubled if it exceeds
5. -/
def ScaleLogarithmic.compute_tick_distance (s : ScaleLogarithmic) : ℚ :=
  let domain_distance : ℚ := s.domain1 - s.domain0
  let tick_distance : ℚ := domain_distance / (s.tick_count : ℚ)
  let tick_distance : ℚ := (10 : ℚ) ^ qlog10floor tick_distance
  let new_tick_count : ℚ := domain_distance / tick_distance
  if new_tick_count < 2 then tick_distance / 2
  else if new_tick_count > 5 then tick_distance * 2
  else tick_distance

/-- `ScaleLogarithmic::scale` (lines 130–141): normalize over the
domain, interpolate into the range — no log-space transform. -/
def ScaleLogarithmic.scale (s : ScaleLogarithmic) (x : ℚ) : ℚ :=
  s.interpolate (s.range0 : ℚ) (s.range1 : ℚ) (s.normalize s.domain0 s.domain1 x)

/-- `ScaleLogarithmic::bandwidth`: always `Some(0)`. -/
def ScaleLogarithmic.bandwidth (_s : ScaleLogarithmic) : Option ℚ :=
  some 0

/-- Modelled from the spec: `ScaleBand`.  `src/scales/mod.rs` declares
`pub mod band` and dispatches to `ScaleBand`, but `band.rs` itself is
not among the given sources.  Per spec §4.3 a band scale holds an
ordered list of category labels and a pixel range, `bandwidth` is the
pixel width of one band, and `scale(category)` is the pixel start of
that category's band. -/
structure ScaleBand where
  domain : List String
  range0 : ℤ
  range1 : ℤ
deriving DecidableEq

/-- Modelled from the spec: the width of one band — the range divided
evenly among the categories (0 for an empty domain). -/
def ScaleBand.bandwidth_val (s : ScaleBand) : ℚ :=
  if s.domain.length = 0 then 0
  else ((s.range1 : ℚ) - (s.range0 : ℚ)) / (s.domain.length : ℚ)

/-- Modelled from the spec: `ScaleBand::scale` — pixel start of the
category's band. -/
def ScaleBand.scale (s : ScaleBand) (category : String) : ℚ :=
  (s.range0 : ℚ) + (s.domain.indexOf category : ℚ) * s.bandwidth_val

/-- Modelled from the spec: `ScaleBand::bandwidth` returns its band
width (present, unlike continuous dispatch). -/
def ScaleBand.bandwidth (s : ScaleBand) : Option ℚ :=
  some s.bandwidth_val

/-- The `ScaleType` enum from `src/scales/mod.rs` lines 7–13: a closed
tagged union over the three scale variants. -/
inductive ScaleType where
  | Band : ScaleBand → ScaleType
  | Linear : ScaleLinear → ScaleType
  | Logarithmic : ScaleLogarithmic → ScaleType
deriving DecidableEq

/-- The `ScaleDomainValue` enum from `src/scales/mod.rs` lines 15–19. -/
inductive ScaleDomainValue where
  | Band : String → ScaleDomainValue
  | Linear : ℚ → ScaleDomainValue
  | Logarithmic : ℚ → ScaleDomainValue
deriving DecidableEq

/-- `ScaleType::scale` (mod.rs lines 22–37): dispatch on the pair of
variants; a mismatched domain value yields `Err(())`. -/
def ScaleType.scale : ScaleType → ScaleDomainValue → Except Unit ℚ
  | .Band s, .Band d => .ok (s.scale d)
  | .Band _, _ => .error ()
  | .Linear s, .Linear d => .ok (s.scale d)
  | .Linear _, _ => .error ()
  | .Logarithmic s, .Logarithmic d => .ok (s.scale d)
  | .Logarithmic _, _ => .error ()

/-- `ScaleType::bandwidth` (mod.rs lines 46–51): only the `Band`
variant delegates to its scale; every other variant yields `None`. -/
def ScaleType.bandwidth : ScaleType → Option ℚ
  | .Band s => s.bandwidth
  | _ => none

/-- Claim-side predicate: the `ScaleType` variant and the
`ScaleDomainValue` variant coincide. -/
def variants_match : ScaleType → ScaleDomainValue → Bool
  | .Band _, .Band _ => true
  | .Linear _, .Linear _ => true
  | .Logarithmic _, .Logarithmic _ => true
  | _, _ => false

/-- Claim-side value: the underlying scale's `scale()` result when the
variants coincide, `none` otherwise. -/
def matched_scale_value : ScaleType → ScaleDomainValue → Option ℚ
  | .Band s, .Band d => some (s.scale d)
  | .Linear s, .Linear d => some (s.scale d)
  | .Logarithmic s, .Logarithmic d => some (s.scale d)
  | _, _ => none

/-- The `AxisPosition` enum from `src/axis.rs` lines 20–25. -/
inductive AxisPosition where
  | Top
  | Right
  | Bottom
  | Left
deriving DecidableEq

/-- The `AxisTick` struct from `src/components/axis.rs` lines 38–46. -/
structure AxisTick where
  axis_position : AxisPosition
  label_offset : ℕ
  label_rotation : ℤ
  tick_offset : ℚ
  label : String
  label_format : Option String
  label_font_size : String
deriving DecidableEq

/-- Value of a list of decimal digit characters. -/
def decDigitsVal (cs : List Char) : ℕ :=
  cs.foldl (fun a c => a * 10 + (c.toNat - 48)) 0

/-- Model of Rust's `str::parse::<f64>()` restricted to plain decimal
literals: an optional sign followed by digits, with an optional single
decimal point (digits on at least one side of it).  Exponent, infinity
and NaN forms are out of the model's scope — the claims only need that
numeric strings parse and that non-numeric strings such as `"abc"` fail,
which both hold of the real parser. -/
def parseF64 (str : String) : Option ℚ :=
  let cs := str.toList
  let rest := match cs with
    | '-' :: t => t
    | '+' :: t => t
    | _ => cs
  let sgn : ℚ := match cs with
    | '-' :: _ => -1
    | _ => 1
  let whole := rest.takeWhile (fun c => c ≠ '.')
  match rest.dropWhile (fun c => c ≠ '.') with
  | [] =>
    if whole ≠ [] ∧ whole.all Char.isDigit then
      some (sgn * (decDigitsVal whole : ℚ))
    else none
  | _ :: frac =>
    if ('.' ∈ frac) then none
    else if (whole ≠ [] ∨ frac ≠ []) ∧
        whole.all Char.isDigit ∧ frac.all Char.isDigit then
      some (sgn * ((decDigitsVal whole : ℚ) +
        (decDigitsVal frac : ℚ) / (10 : ℚ) ^ frac.length))
    else none

/-- Outcome of a computation that may abort the process: `.panicked`
marks a Rust `panic` (here, an `unwrap()` of `None`/`Err`), which never
reaches the caller as a value. -/
inductive PanicOr (α : Type) where
  | ok : α → PanicOr α
  | panicked : PanicOr α
deriving DecidableEq

/-- The label-formatting step of `AxisTick::to_svg`
(`src/components/axis.rs` lines 86–92): when a format is set, the raw
label is parsed as a number and `unwrap()`ed — a failed parse panics
rather than producing the function's `Err` result — then passed through
the external formatter (`NumberFormat::format`, the injected
`formatter` argument) with any `G` suffix replaced by `B`; without a
format the raw label is used as-is.  The function's only `return` is
`Ok(..)`: no input produces an `Err`. -/
def AxisTick.formatted_label (t : AxisTick)
    (formatter : String → ℚ → String) : PanicOr String :=
  match t.label_format with
  | some fmt =>
    match parseF64 t.label with
    | some v => .ok ((formatter fmt v).replace "G" "B")
    | none => .panicked
  | none => .ok t.label

/-- `Axis::characters_to_px` (`src/axis.rs` lines 192–195):
`(12_f32 + (characters as f32 * font_size as f32 * 0.7)) as i32` — the
final cast truncates toward zero. -/
def characters_to_px (characters font_size : ℕ) : ℤ :=
  f32_to_i32 ((12 : ℚ) + ((characters : ℚ) * (font_size : ℚ) * (7 / 10)))

/-! Evaluation lemmas for the base-10 logarithm helpers at the concrete
values the counterexamples need. -/

/-- Concrete value: `Nat.log 10 20 = 1`. -/
theorem nat_log_ten_twenty : Nat.log 10 20 = 1 :=
  Nat.log_eq_of_pow_le_of_lt_pow (by norm_num) (by norm_num)

/-- Concrete value: `Nat.log 10 99 = 1`. -/
theorem nat_log_ten_ninetynine : Nat.log 10 99 = 1 :=
  Nat.log_eq_of_pow_le_of_lt_pow (by norm_num) (by norm_num)

/-- Concrete value: `Nat.clog 10 20 = 2`. -/
theorem nat_clog_ten_twenty : Nat.clog 10 20 = 2 := by
  have ha : Nat.clog 10 20 ≤ 2 := (Nat.le_pow_iff_clog_le (by norm_num)).mp (by norm_num)
  have hb : ¬ (Nat.clog 10 20 ≤ 1) := by
    intro h
    have := (Nat.le_pow_iff_clog_le (by norm_num)).mpr h
    norm_num at this
  omega

/-- Truncated base-10 log of `1/20` is `-1` (`log₁₀ 0.05 ≈ -1.301`,
truncated toward zero). -/
theorem qlog10trunc_twentieth : qlog10trunc ((1:ℚ)/20) = -1 := by
  unfold qlog10trunc
  rw [if_neg (by norm_num)]
  rw [show ((1:ℚ)/20)⁻¹ = 20 by norm_num]
  rw [show ⌊(20:ℚ)⌋ = 20 by norm_num]
  rw [show (20:ℤ).toNat = 20 from rfl]
  rw [nat_log_ten_twenty]
  rfl

/-- Floored base-10 log of `1/20` is `-2` (`⌊log₁₀ 0.05⌋ = -2`). -/
theorem qlog10floor_twentieth : qlog10floor ((1:ℚ)/20) = -2 := by
  unfold qlog10floor
  rw [if_neg (by norm_num)]
  rw [show ((1:ℚ)/20)⁻¹ = 20 by norm_num]
  rw [show ⌈(20:ℚ)⌉ = 20 by norm_num]
  rw [show (20:ℤ).toNat = 20 from rfl]
  rw [nat_clog_ten_twenty]
  rfl

/-- Floored base-10 log of `999/10` is `1`. -/
theorem qlog10floor_ninetyninepointnine : qlog10floor ((999:ℚ)/10) = 1 := by
  unfold qlog10floor
  rw [if_pos (by norm_num)]
  rw [show ⌊(999:ℚ)/10⌋ = 99 by norm_num]
  rw [show (99:ℤ).toNat = 99 from rfl]
  rw [nat_log_ten_ninetynine]
  rfl

/-- C1 (counterexample): the claim quantifies over every domain with
`a ≠ b`, but for `[0, 2⁻²⁴]` the bounds differ by less than
`f32::EPSILON`, so `normalize` takes its `0.5` branch and `scale(a)`
returns the midpoint `50` of the range `[0, 100]` instead of the range
start `0`. -/
theorem c1_subepsilon_counterexample : (0:ℚ) ≠ 1/2^24 ∧
    ScaleLinear.scale ⟨0, 1/2^24, 0, 100, 10⟩ 0 = 50 ∧
    ScaleLinear.range_start ⟨0, 1/2^24, 0, 100, 10⟩ = 0 := by
  refine ⟨by norm_num, ?_, rfl⟩
  unfold ScaleLinear.scale ScaleLinear.normalize ScaleLinear.interpolate
  rw [if_pos (by rw [abs_of_nonpos (by norm_num)]; norm_num [epsF32])]
  norm_num

/-- C1 (amended): for every Linear scale whose domain bounds differ by
at least `f32::EPSILON`, `scale` maps the lower domain bound exactly to
the range start and the upper domain bound exactly to the range end. -/
theorem c1_scale_endpoints (s : ScaleLinear)
    (h : epsF32 ≤ |s.domain0 - s.domain1|) :
    s.scale s.domain0 = s.range_start ∧ s.scale s.domain1 = s.range_end := by
  have hne : s.domain1 - s.domain0 ≠ 0 := by
    have hpos : (0:ℚ) < |s.domain0 - s.domain1| :=
      lt_of_lt_of_le (by norm_num [epsF32]) h
    intro hc
    rw [show s.domain0 - s.domain1 = -(s.domain1 - s.domain0) by ring, hc] at hpos
    simp at hpos
  unfold ScaleLinear.scale ScaleLinear.normalize ScaleLinear.interpolate
      ScaleLinear.range_start ScaleLinear.range_end
  simp only [if_neg (not_lt.mpr h)]
  constructor
  · rw [sub_self, zero_div]
    ring
  · rw [div_self hne]
    ring

/-- Witness for C1: the scale with domain `[0, 1]` and range `[0, 100]`
satisfies the hypothesis and maps its endpoints to `0` and `100`. -/
theorem c1_scale_endpoints_witness : epsF32 ≤ |(0:ℚ) - 1| ∧
    ScaleLinear.scale ⟨0, 1, 0, 100, 10⟩ 0 = ScaleLinear.range_start ⟨0, 1, 0, 100, 10⟩ ∧
    ScaleLinear.scale ⟨0, 1, 0, 100, 10⟩ 1 = ScaleLinear.range_end ⟨0, 1, 0, 100, 10⟩ := by
  have h : epsF32 ≤ |(0:ℚ) - 1| := by
    rw [abs_of_nonpos (by norm_num)]
    norm_num [epsF32]
  exact ⟨h, c1_scale_endpoints ⟨0, 1, 0, 100, 10⟩ h⟩

/-- C2 (counterexample): the claim computes `power = ⌊log₁₀ step⌋`, but
the source truncates toward zero.  For `start = 0`, `stop = 1/2`,
`tick_count = 10` the raw step is `1/20`; the source's truncated power
`-1` yields `-10` (an effective increment of `1/10`), while the claim's
floored power `-2` yields `-20` (an effective increment of `1/20`). -/
theorem c2_trunc_vs_floor_counterexample :
    ScaleLinear.tick_step ⟨0, 1/2, 0, 1, 10⟩ 0 (1/2) = -10 ∧
    tick_step_floor_spec 10 0 (1/2) = -20 ∧
    ScaleLinear.tick_step ⟨0, 1/2, 0, 1, 10⟩ 0 (1/2) ≠ tick_step_floor_spec 10 0 (1/2) := by
  have h1 : ScaleLinear.tick_step ⟨0, 1/2, 0, 1, 10⟩ 0 (1/2) = -10 := by
    simp only [ScaleLinear.tick_step]
    rw [show ((1:ℚ)/2 - 0) / (((max 0 (⟨0, 1/2, 0, 1, 10⟩ : ScaleLinear).tick_count) : ℕ) : ℚ)
        = 1/20 by norm_num]
    rw [qlog10trunc_twentieth]
    norm_num [sqrtLe]
  have h2 : tick_step_floor_spec 10 0 ((1:ℚ)/2) = -20 := by
    simp only [tick_step_floor_spec]
    rw [show ((1:ℚ)/2 - 0) / ((10:ℕ) : ℚ) = 1/20 by norm_num]
    rw [qlog10floor_twentieth]
    norm_num [sqrtLe]
  refine ⟨h1, h2, ?_⟩
  rw [h1, h2]
  norm_num

/-- C2 (amended): for every scale, `start < stop` and positive
`tick_count`, the effective tick increment encoded by `tick_step` (the
value itself when positive, `-step⁻¹` for the sign-flipped reciprocal
branch) is `m · 10^p` with a per-decade multiplier `m ∈ {1, 2, 5, 10}`;
`power` is the truncation of `log₁₀ step` toward zero, not its floor. -/
theorem c2_step_multiplier (s : ScaleLinear) (start stop : ℚ)
    (_h1 : 0 < s.tick_count) (_h2 : start < stop) :
    ∃ (m : ℚ) (p : ℤ), (m = 1 ∨ m = 2 ∨ m = 5 ∨ m = 10) ∧
      step_increment (s.tick_step start stop) = m * (10:ℚ)^p := by
  simp only [ScaleLinear.tick_step]
  set step := (stop - start) / ((max 0 s.tick_count : ℕ) : ℚ) with hstep
  set power := qlog10trunc step with hpower
  set dyn := (if sqrtLe 50 (step / (10:ℚ)^power) then (10:ℚ)
    else if sqrtLe 10 (step / (10:ℚ)^power) then 5
    else if sqrtLe 2 (step / (10:ℚ)^power) then 2 else 1) with hdyn
  have hdcases : dyn = 1 ∨ dyn = 2 ∨ dyn = 5 ∨ dyn = 10 := by
    rw [hdyn]
    split
    · norm_num
    · split
      · norm_num
      · split
        · norm_num
        · norm_num
  have hdpos : (0:ℚ) < dyn := by
    rcases hdcases with h | h | h | h <;> rw [h] <;> norm_num
  refine ⟨dyn, power, hdcases, ?_⟩
  by_cases hp : power < 0
  · rw [if_pos hp]
    have hA : (0:ℚ) < (10:ℚ)^(-power) := by positivity
    have hr : -((10:ℚ)^(-power))/dyn < 0 := div_neg_of_neg_of_pos (by linarith) hdpos
    unfold step_increment
    rw [if_pos hr, inv_div, div_neg, neg_neg]
    rw [div_eq_mul_inv, ← zpow_neg, neg_neg]
  · rw [if_neg hp]
    have hnn : (0:ℚ) ≤ dyn * (10:ℚ)^power := mul_nonneg hdpos.le (by positivity)
    unfold step_increment
    rw [if_neg (not_lt.mpr hnn)]

/-- Witness for C2: domain `[0, 100]` with 10 ticks — the effective
increment `10 = 1 · 10¹` has multiplier 1. -/
theorem c2_step_multiplier_witness :
    0 < (⟨0, 100, 0, 500, 10⟩ : ScaleLinear).tick_count ∧ (0:ℚ) < 100 ∧
    ∃ (m : ℚ) (p : ℤ), (m = 1 ∨ m = 2 ∨ m = 5 ∨ m = 10) ∧
      step_increment (ScaleLinear.tick_step ⟨0, 100, 0, 500, 10⟩ 0 100) = m * (10:ℚ)^p :=
  ⟨by norm_num, by norm_num,
    c2_step_multiplier ⟨0, 100, 0, 500, 10⟩ 0 100 (by norm_num) (by norm_num)⟩

/-- C3: when the two domain bounds of a Linear scale agree within
`f32::EPSILON` and `tick_count > 0`, `get_ticks` returns exactly one
tick, equal to the first domain value. -/
theorem c3_degenerate_single_tick (s : ScaleLinear)
    (h1 : |s.domain0 - s.domain1| < epsF32) (h2 : 0 < s.tick_count) :
    s.get_ticks = [s.domain0] := by
  unfold ScaleLinear.get_ticks
  rw [if_pos ⟨h1, h2⟩]

/-- Witness for C3: the degenerate scale `[5, 5]` with 10 ticks yields
exactly `[5]`. -/
theorem c3_degenerate_single_tick_witness : |(5:ℚ) - 5| < epsF32 ∧ 0 < 10 ∧
    ScaleLinear.get_ticks ⟨5, 5, 0, 100, 10⟩ = [5] :=
  ⟨by norm_num [epsF32], by norm_num,
    c3_degenerate_single_tick ⟨5, 5, 0, 100, 10⟩ (by norm_num [epsF32]) (by norm_num)⟩

/-- C4 (counterexample): for the default logarithmic scale (domain
`[1, 1000]`, `tick_count = 10`) the computed distance is `20`, and the
resulting tick count over the domain, `999/20 = 49.95`, does not fall in
`[2, 5]` — the halve/double adjustment is applied once, not iterated. -/
theorem c4_default_tick_count_counterexample :
    ScaleLogarithmic.default.compute_tick_distance = 20 ∧
    ¬(2 ≤ (999:ℚ) / ScaleLogarithmic.default.compute_tick_distance ∧
      (999:ℚ) / ScaleLogarithmic.default.compute_tick_distance ≤ 5) := by
  have h : ScaleLogarithmic.default.compute_tick_distance = 20 := by
    simp only [ScaleLogarithmic.compute_tick_distance, ScaleLogarithmic.default]
    rw [show ((1000:ℚ) - 1) / ((10:ℕ) : ℚ) = 999/10 by norm_num]
    rw [qlog10floor_ninetyninepointnine]
    norm_num
  refine ⟨h, ?_⟩
  rw [h]
  norm_num

/-- C4 (amended): `compute_tick_distance` returns the domain span over
`tick_count` rounded down to a power of ten, then — in a single
adjustment — halved when the resulting tick count falls below 2 and
doubled when it exceeds 5, so the result is always `10^p/2`, `10^p` or
`10^p · 2`; for the default domain `[1, 1000]` with `tick_count = 10`
the distance is `20` (tick count `49.95`, not in `[2, 5]`). -/
theorem c4_tick_distance_shape :
    (∀ s : ScaleLogarithmic, 0 < s.domain1 - s.domain0 → 0 < s.tick_count →
      ∃ p : ℤ, s.compute_tick_distance = (10:ℚ)^p / 2 ∨
        s.compute_tick_distance = (10:ℚ)^p ∨
        s.compute_tick_distance = (10:ℚ)^p * 2) ∧
    ScaleLogarithmic.default.compute_tick_distance = 20 := by
  constructor
  · intro s _h1 _h2
    simp only [ScaleLogarithmic.compute_tick_distance]
    refine ⟨qlog10floor ((s.domain1 - s.domain0) / (s.tick_count : ℚ)), ?_⟩
    split
    · exact Or.inl rfl
    · split
      · exact Or.inr (Or.inr rfl)
      · exact Or.inr (Or.inl rfl)
  · simp only [ScaleLogarithmic.compute_tick_distance, ScaleLogarithmic.default]
    rw [show ((1000:ℚ) - 1) / ((10:ℕ) : ℚ) = 999/10 by norm_num]
    rw [qlog10floor_ninetyninepointnine]
    norm_num

/-- Witness for C4: the default scale satisfies the hypotheses
(`0 < 999`, `0 < 10`) and its distance has the stated shape. -/
theorem c4_tick_distance_shape_witness :
    0 < ScaleLogarithmic.default.domain1 - ScaleLogarithmic.default.domain0 ∧
    0 < ScaleLogarithmic.default.tick_count ∧
    ∃ p : ℤ, ScaleLogarithmic.default.compute_tick_distance = (10:ℚ)^p / 2 ∨
      ScaleLogarithmic.default.compute_tick_distance = (10:ℚ)^p ∨
      ScaleLogarithmic.default.compute_tick_distance = (10:ℚ)^p * 2 :=
  ⟨by norm_num [ScaleLogarithmic.default], by norm_num [ScaleLogarithmic.default],
    c4_tick_distance_shape.1 ScaleLogarithmic.default
      (by norm_num [ScaleLogarithmic.default]) (by norm_num [ScaleLogarithmic.default])⟩

/-- C5: `ScaleLogarithmic::scale` performs exactly the linear
normalize/interpolate of `ScaleLinear::scale` — for every domain, range
and input the two scales agree (no log-space transform is applied). -/
theorem c5_log_scale_equals_linear_scale (d0 d1 : ℚ) (r0 r1 : ℤ) (tc : ℕ) (x : ℚ) :
    ScaleLogarithmic.scale ⟨d0, d1, r0, r1, tc⟩ x
      = ScaleLinear.scale ⟨d0, d1, r0, r1, tc⟩ x := rfl

/-- C6: a Linear scale with ordered domain bounds (the data-model
invariant `domain = [min, max]`) and a non-reversed range is monotone:
`x1 < x2` implies `scale(x1) ≤ scale(x2)`. -/
theorem c6_scale_monotonic (s : ScaleLinear) (x1 x2 : ℚ)
    (hd : s.domain0 ≤ s.domain1) (hr : s.is_range_reversed = false)
    (hx : x1 < x2) : s.scale x1 ≤ s.scale x2 := by
  have hr' : (s.range0 : ℚ) ≤ (s.range1 : ℚ) := by
    have := of_decide_eq_false hr
    unfold ScaleLinear.range_start ScaleLinear.range_end at this
    exact not_lt.mp this
  unfold ScaleLinear.scale ScaleLinear.normalize ScaleLinear.interpolate
  split
  · exact le_refl _
  · rename_i hcond
    have hlt : s.domain0 < s.domain1 := by
      rcases lt_or_eq_of_le hd with h | h
      · exact h
      · exfalso
        apply hcond
        rw [h, sub_self, abs_zero]
        norm_num [epsF32]
    have hpos : (0:ℚ) < s.domain1 - s.domain0 := by linarith
    have hdiv : (x1 - s.domain0) / (s.domain1 - s.domain0)
        ≤ (x2 - s.domain0) / (s.domain1 - s.domain0) := by
      gcongr
    nlinarith [mul_le_mul_of_nonneg_left hdiv
      (by linarith : (0:ℚ) ≤ (s.range1 : ℚ) - (s.range0 : ℚ))]

/-- Witness for C6: on domain `[0, 100]`, range `[0, 500]`,
`scale(1) ≤ scale(2)`. -/
theorem c6_scale_monotonic_witness : (0:ℚ) ≤ 100 ∧
    ScaleLinear.is_range_reversed ⟨0, 100, 0, 500, 10⟩ = false ∧ (1:ℚ) < 2 ∧
    ScaleLinear.scale ⟨0, 100, 0, 500, 10⟩ 1 ≤ ScaleLinear.scale ⟨0, 100, 0, 500, 10⟩ 2 := by
  have hrev : ScaleLinear.is_range_reversed ⟨0, 100, 0, 500, 10⟩ = false := by
    unfold ScaleLinear.is_range_reversed ScaleLinear.range_start ScaleLinear.range_end
    norm_num
  exact ⟨by norm_num, hrev, by norm_num,
    c6_scale_monotonic ⟨0, 100, 0, 500, 10⟩ 1 2 (by norm_num) hrev (by norm_num)⟩

/-- C7 (counterexample): the claim rounds to nearest, but the source's
`as i32` cast truncates: at `chars = 6`, `font_size = 14` the exact
value `70.8` is cut to `70`, while `round` gives `71`. -/
theorem c7_round_counterexample :
    characters_to_px 6 14 ≠ round ((12:ℚ) + 6 * 14 * (7/10)) := by
  have h1 : characters_to_px 6 14 = 70 := by
    unfold characters_to_px f32_to_i32
    norm_num
    decide
  have h2 : round ((12:ℚ) + 6 * 14 * (7/10)) = 71 := by norm_num [round_eq]
  rw [h1, h2]
  decide

/-- C7 (amended): for every `chars` and `font_size`,
`characters_to_px` equals `⌊12 + chars · font_size · 0.7⌋` (truncation,
which on this nonnegative value is the floor); in particular `chars = 6`,
`font_size = 14` yields `70`. -/
theorem c7_characters_to_px_trunc : (∀ characters font_size : ℕ,
    characters_to_px characters font_size
      = ⌊(12:ℚ) + (characters : ℚ) * (font_size : ℚ) * (7/10)⌋) ∧
    characters_to_px 6 14 = 70 := by
  constructor
  · intro c f
    unfold characters_to_px f32_to_i32
    have h : (0:ℚ) ≤ (12:ℚ) + (c : ℚ) * (f : ℚ) * (7/10) := by positivity
    rw [Rat.floor_def, Int.tdiv_eq_ediv (Rat.num_nonneg.mpr h) (Int.natCast_nonneg _)]
  · unfold characters_to_px f32_to_i32
    norm_num
    decide

/-- C8 (counterexample): dispatching `bandwidth` through `ScaleType` on
a Linear scale yields `None`, not the claimed present `Some(0)`. -/
theorem c8_dispatch_counterexample :
    ScaleType.bandwidth (ScaleType.Linear ⟨0, 100, 0, 500, 10⟩) ≠ some 0 := by
  simp [ScaleType.bandwidth]

/-- C8 (amended): the direct `ScaleLinear`/`ScaleLogarithmic`
implementations return a present zero bandwidth `Some(0)`, but the
`ScaleType` dispatch returns `None` for both continuous variants (only
`Band` delegates to its scale). -/
theorem c8_bandwidth_values : (∀ s : ScaleLinear, s.bandwidth = some 0) ∧
    (∀ s : ScaleLogarithmic, s.bandwidth = some 0) ∧
    (∀ s : ScaleLinear, ScaleType.bandwidth (ScaleType.Linear s) = none) ∧
    (∀ s : ScaleLogarithmic, ScaleType.bandwidth (ScaleType.Logarithmic s) = none) :=
  ⟨fun _ => rfl, fun _ => rfl, fun _ => rfl, fun _ => rfl⟩

/-- C9: a tick whose raw label (here `"abc"`) cannot be parsed as a
number while a numeric format is set makes `to_svg` panic on the
`unwrap()` of the parse — the claimed reportable `Err` result never
reaches the caller, for any external formatter. -/
theorem c9_unparseable_label_panics (formatter : String → ℚ → String) :
    AxisTick.formatted_label
      ⟨AxisPosition.Bottom, 16, 0, 0, "abc", some ".2s", "12px"⟩ formatter
      = PanicOr.panicked := by
  unfold AxisTick.formatted_label
  have h : parseF64 "abc" = none := by decide
  simp [h]

/-- C10: `ScaleType::scale` returns `Err(())` exactly when the
`ScaleDomainValue` variant differs from the `ScaleType` variant, and on
a match its `Ok` payload is the underlying scale's `scale()` value. -/
theorem c10_scale_dispatch (st : ScaleType) (dv : ScaleDomainValue) :
    (ScaleType.scale st dv = Except.error () ↔ variants_match st dv = false) ∧
    (ScaleType.scale st dv).toOption = matched_scale_value st dv := by
  cases st <;> cases dv <;>
    simp [ScaleType.scale, variants_match, matched_scale_value, Except.toOption]
